import Mathlib

/-!
Verification of the Dubai ETA prediction pipeline
(`src/data_generator.py`, `src/feature_engineering.py`, `src/models.py`,
`src/predictor.py`) against its natural-language specification.

The Python code is shallowly embedded: pure functions become Lean
functions, pandas dataframes become association lists of named columns,
Python dicts become association lists with an explicit `dictGet`
(mirroring `dict.get(key, default)`), floats become exact rationals
(values the code obtains from transcendental float operations, such as
sin/cos and square roots, are carried symbolically in the `Val` type:
no verified claim depends on their numeric magnitude, only on which
slot of the state they are read from).
-/

namespace DubaiETA

/-! ## Zone model (`DubaiDataGenerator`, `ETAPredictor`)

`config.yaml` supplies `data.grid_size` (default 10), `data.n_zones`
(default 100) and the `zones` section; the zone-type configuration is
kept as an explicit parameter below. -/

/-- Derived grid row of a zone id: `id // grid_size`. -/
def zoneRow (gridSize z : ℕ) : ℕ := z / gridSize

/-- Derived grid column of a zone id: `id % grid_size`. -/
def zoneCol (gridSize z : ℕ) : ℕ := z % gridSize

/-- `DubaiDataGenerator.calculate_dubai_distance`: Manhattan distance of the
derived grid coordinates, `abs(p_row - d_row) + abs(p_col - d_col)`. -/
def calculate_dubai_distance (gridSize pickup dropoff : ℕ) : ℕ :=
  Int.natAbs ((zoneRow gridSize pickup : ℤ) - (zoneRow gridSize dropoff : ℤ)) +
    Int.natAbs ((zoneCol gridSize pickup : ℤ) - (zoneCol gridSize dropoff : ℤ))

/-- `ETAPredictor._calculate_dubai_distance`: the predictor's own copy of the
same computation (it re-reads `data.grid_size` from config and re-derives
rows and columns). -/
def predictor_calculate_dubai_distance (gridSize pickup dropoff : ℕ) : ℕ :=
  Int.natAbs ((pickup / gridSize : ℕ) - (dropoff / gridSize : ℕ) : ℤ) +
    Int.natAbs ((pickup % gridSize : ℕ) - (dropoff % gridSize : ℕ) : ℤ)

/-- The spec's error taxonomy names an `InvalidZoneError` for out-of-range
zone ids (spec section 4.1 / 7). No such error exists in the core source. -/
inductive ZoneError where
  | invalidZone
deriving DecidableEq

/-- The source's distance operation viewed through an error monad: the
source performs no range check and has no failure path, so every input is
mapped to a successful result. -/
def zoneDistanceCodeE (gridSize pickup dropoff : ℕ) : Except ZoneError ℕ :=
  Except.ok (predictor_calculate_dubai_distance gridSize pickup dropoff)

/-- Modelled from the spec: section 4.1 says the zone operations are
"pure, deterministic, no failure modes beyond out-of-range id (fails with
InvalidZoneError)". This definition follows the spec's words, for
comparison with the source's actual (total, check-free) operation. -/
def zoneDistanceSpecModel (nZones gridSize pickup dropoff : ℕ) :
    Except ZoneError ℕ :=
  if pickup < nZones ∧ dropoff < nZones then
    Except.ok (predictor_calculate_dubai_distance gridSize pickup dropoff)
  else
    Except.error ZoneError.invalidZone

/-! ### Zone type configuration

The `zones` section of the config is an ordered mapping from zone-type
name to either a dict holding a `cells` list (new format) or a list of
lists of zone ids (old format); any other shape is skipped by both
components. -/

/-- One entry value of the `zones` config section. -/
inductive ZoneData where
  /-- New format: a dict with a `cells` key. -/
  | cellsDict (cells : List ℕ)
  /-- Old format: a list of lists of zone ids. -/
  | listFmt (lists : List (List ℕ))
  /-- Any other shape: skipped by both the generator and the predictor. -/
  | other
deriving DecidableEq

/-- The ordered `zones` config section: type name paired with its data. -/
abbrev ZonesConfig := List (String × ZoneData)

/-- The zone ids an entry assigns: the `cells` list in the new format and
the concatenation of the inner lists in the old format (both components
iterate exactly these ids). -/
def cellsOf : ZoneData → List ℕ
  | ZoneData.cellsDict cells => cells
  | ZoneData.listFmt lists => lists.flatten
  | ZoneData.other => []

/-- One pass of the generator's override loop: `zone_types[zone] = zone_type`
for every zone in the entry's cells, as sequential dict writes. -/
def applyCells (m : ℕ → Option String) (ty : String) (cells : List ℕ) :
    ℕ → Option String :=
  cells.foldl (fun acc z => Function.update acc z (some ty)) m

/-- `DubaiDataGenerator._define_zone_types`: initialize every zone in
`range(n_zones)` as residential, then override per config entry in
declaration order (later writes overwrite earlier ones). The dict is
modelled as a partial map; ids never written are absent. -/
def define_zone_types (nZones : ℕ) (cfg : ZonesConfig) : ℕ → Option String :=
  cfg.foldl (fun m e => applyCells m e.1 (cellsOf e.2))
    (fun z => if z < nZones then some "residential" else none)

/-- `ETAPredictor._get_zone_type`: scan the config entries in declaration
order and return the first type whose cells contain the zone, defaulting
to residential. -/
def get_zone_type (cfg : ZonesConfig) (zone : ℕ) : String :=
  match cfg with
  | [] => "residential"
  | e :: rest => if zone ∈ cellsOf e.2 then e.1 else get_zone_type rest zone

/-! ## Feature engineering (`FeatureEngineer`)

Dataframes are modelled column-oriented: an ordered association list of
column name to the list of that column's cell values. -/

/-- A dataframe cell. Exact numerics (ints, bools coerced by arithmetic,
finite float results of field operations) are rationals; values the source
obtains from transcendental float functions are carried symbolically, so
that equality of cells tracks provenance exactly. -/
inductive Val where
  /-- An exact numeric value. -/
  | q (x : ℚ)
  /-- A string cell. -/
  | s (x : String)
  /-- A boolean cell. -/
  | b (x : Bool)
  /-- The float `np.sin(2 * np.pi * x)`. -/
  | sin2pi (x : ℚ)
  /-- The float `np.cos(2 * np.pi * x)`. -/
  | cos2pi (x : ℚ)
  /-- The float pandas sample standard deviation (ddof = 1) of `xs`. -/
  | sampleStd (xs : List ℚ)
deriving DecidableEq

/-- Numeric view of a cell; pandas arithmetic treats booleans as 0/1.
The source never applies arithmetic to the remaining shapes. -/
def Val.toQ : Val → ℚ
  | Val.q x => x
  | Val.b x => if x then 1 else 0
  | _ => 0

/-- String view of a cell. -/
def Val.toS : Val → String
  | Val.s x => x
  | _ => ""

/-- A dataframe: ordered named columns. -/
abbrev DF := List (String × List Val)

/-- Whether a column name is present (`c in df.columns`). -/
def containsCol (df : DF) (c : String) : Bool :=
  df.any (fun p => p.1 == c)

/-- Read a column (`df[c]`). pandas raises a KeyError on a missing name;
here the read itself is total (empty column) and the error surfaces where
the source's control flow does: `transform` rejects frames missing any
raw column it reads (see `transformBody`), and `selectCols` is partial,
so no claim ever observes the junk value of a missing read. -/
def getCol (df : DF) (c : String) : List Val :=
  ((df.find? (fun p => p.1 == c)).map Prod.snd).getD []

/-- A column's cells viewed numerically. -/
def colQ (df : DF) (c : String) : List ℚ := (getCol df c).map Val.toQ

/-- A column's cells viewed as strings. -/
def colS (df : DF) (c : String) : List String := (getCol df c).map Val.toS

/-- Row count (`len(df)`), read off the first column. -/
def nRowsD (df : DF) : ℕ :=
  match df with
  | [] => 0
  | p :: _ => p.2.length

/-- Column assignment `df[c] = vs`: overwrite in place when the column
exists, else append it as the new last column. -/
def setCol (df : DF) (c : String) (vs : List Val) : DF :=
  if containsCol df c then df.map (fun p => if p.1 = c then (c, vs) else p)
  else df ++ [(c, vs)]

/-- Python `dict` lookup (`d[k]` / `d.get(k)`): first (unique) matching key. -/
def dictGet {α β : Type} [DecidableEq α] (d : List (α × β)) (k : α) : Option β :=
  match d with
  | [] => none
  | (a, b) :: rest => if a = k then some b else dictGet rest k

/-- A key of the `zone_pair_stats` dict. `fit` stores string keys — the
aggregate names produced by `DataFrame.to_dict()`, which orients a frame
as column -> (index -> value) — while `transform` looks the dict up with
tuple keys. Python dicts are key-heterogeneous, so the key type is a sum. -/
inductive PKey where
  /-- A string key such as "mean", "std", "count". -/
  | s (name : String)
  /-- A `(pickup_zone, dropoff_zone)` tuple key. -/
  | p (pair : ℚ × ℚ)
deriving DecidableEq

/-- Errors raised by `FeatureEngineer`. The unfitted-transform guard raises
a Python `ValueError` (the spec's taxonomy names it `NotFittedError`);
selecting absent columns would raise a `KeyError`. -/
inductive FEError where
  /-- `raise ValueError(msg)`. -/
  | valueError (msg : String)
  /-- Column selection with a missing key. -/
  | keyError
deriving DecidableEq

/-- `FeatureEngineer.__init__` state. `feature_stats` is flattened into its
five keys; before `fit` they hold junk defaults that `transform` can never
read because of the fitted guard. -/
structure FeatureEngineer where
  /-- `self.zone_pair_stats` (see `PKey`). -/
  zone_pair_stats : List (PKey × List (PKey × Val)) := []
  /-- `self.feature_stats['hour_mean']`. -/
  hour_mean : List (ℚ × ℚ) := []
  /-- `self.feature_stats['dow_mean']`. -/
  dow_mean : List (ℚ × ℚ) := []
  /-- `self.feature_stats['zone_combo_mean']`. -/
  zone_combo_mean : List ((String × String) × ℚ) := []
  /-- `self.feature_stats['global_mean']`. -/
  global_mean : ℚ := 0
  /-- `self.feature_stats['global_std']`. -/
  global_std : Val := Val.q 0
  /-- `self.training_columns`. -/
  training_columns : Option (List String) := none
  /-- `self.fitted`. -/
  fitted : Bool := false

/-- A freshly constructed `FeatureEngineer()`. -/
def initFeatureEngineer : FeatureEngineer := {}

/-- Mean as pandas computes it (`sum/len`; the empty mean, NaN in pandas,
is the junk value 0 here and is never read by a verified claim). -/
def listMean (xs : List ℚ) : ℚ := xs.sum / xs.length

/-- Group keys of a groupby (unique keys; pandas sorts them, but the dicts
built from them are only read through lookups, so order is immaterial). -/
def groupKeys {κ : Type} [DecidableEq κ] (ks : List κ) : List κ := ks.dedup

/-- The grouped values belonging to one key. -/
def groupVals {κ : Type} [DecidableEq κ] (rows : List (κ × ℚ)) (k : κ) :
    List ℚ :=
  (rows.filter (fun r => decide (r.1 = k))).map Prod.snd

/-- `FeatureEngineer.fit`: freeze the aggregate statistics. On a frame
missing the raw trip columns the source raises a KeyError at the groupby;
the embedding keeps `fit` total with junk aggregates because every claim
reaches a fitted state only through `fit_transform`, whose transform step
rejects exactly those frames (KeyError either way in the source). -/
def fit (fe : FeatureEngineer) (df : DF) : FeatureEngineer :=
  let pickups := colQ df "pickup_zone"
  let dropoffs := colQ df "dropoff_zone"
  let durations := colQ df "actual_duration_minutes"
  let pairRows := (pickups.zip dropoffs).zip durations
  let pairKeys := groupKeys (pickups.zip dropoffs)
  let hours := colQ df "hour"
  let dows := colQ df "day_of_week"
  let combos := (colS df "zone_type_pickup").zip (colS df "zone_type_dropoff")
  { fe with
    zone_pair_stats :=
      [ (PKey.s "mean", pairKeys.map (fun k =>
          (PKey.p k, Val.q (listMean (groupVals pairRows k))))),
        (PKey.s "std", pairKeys.map (fun k =>
          (PKey.p k, Val.sampleStd (groupVals pairRows k)))),
        (PKey.s "count", pairKeys.map (fun k =>
          (PKey.p k, Val.q ((groupVals pairRows k).length)))) ],
    hour_mean := (groupKeys hours).map (fun k =>
      (k, listMean (groupVals (hours.zip durations) k))),
    dow_mean := (groupKeys dows).map (fun k =>
      (k, listMean (groupVals (dows.zip durations) k))),
    zone_combo_mean := (groupKeys combos).map (fun k =>
      (k, listMean (groupVals (combos.zip durations) k))),
    global_mean := listMean durations,
    global_std := Val.sampleStd durations,
    fitted := true }

/-- Time-window indicator `features['hour'].between(6, 10)` (inclusive). -/
def is_morning_ind (h : ℚ) : ℚ := if 6 ≤ h ∧ h ≤ 10 then 1 else 0

/-- Time-window indicator `features['hour'].between(12, 16)` (inclusive). -/
def is_afternoon_ind (h : ℚ) : ℚ := if 12 ≤ h ∧ h ≤ 16 then 1 else 0

/-- Time-window indicator `features['hour'].between(17, 21)` (inclusive). -/
def is_evening_ind (h : ℚ) : ℚ := if 17 ≤ h ∧ h ≤ 21 then 1 else 0

/-- Time-window indicator `between(22, 23) | between(0, 5)` (inclusive). -/
def is_night_ind (h : ℚ) : ℚ :=
  if (22 ≤ h ∧ h ≤ 23) ∨ (0 ≤ h ∧ h ≤ 5) then 1 else 0

/-- One `pd.get_dummies` expansion group: for each level of the column
(unique values, sorted), a boolean indicator column named
`column_level` (`prefix_sep` is an underscore). -/
def dummiesFor (c : String) (values : List String) : List (String × List Val) :=
  (List.insertionSort (· ≤ ·) values.dedup).map (fun lv =>
    (c ++ "_" ++ lv, values.map (fun v => Val.b (decide (v = lv)))))

/-- `pd.get_dummies(df, columns=cats)`: non-categorical columns keep their
order, the dummy groups are appended at the end in the order of `cats`. -/
def get_dummies (df : DF) (cats : List String) : DF :=
  df.filter (fun p => !(cats.contains p.1)) ++
    (cats.map (fun c => dummiesFor c (colS df c))).flatten

/-- `df[cols]`: select columns in the given order; a missing key raises. -/
def selectCols (df : DF) (cols : List String) : Option DF :=
  if cols.all (fun c => containsCol df c) then
    some (cols.map (fun c => (c, getCol df c)))
  else none

/-- The feature-building part of `FeatureEngineer.transform` (source lines
57-123): every assignment targets `features = df.copy()`, ending with the
one-hot expansion. -/
def featurePipeline (fe : FeatureEngineer) (df : DF) : DF :=
  let features := df
  let features := setCol features "hour_sin"
    ((colQ features "hour").map (fun h => Val.sin2pi (h / 24)))
  let features := setCol features "hour_cos"
    ((colQ features "hour").map (fun h => Val.cos2pi (h / 24)))
  let features := setCol features "dow_sin"
    ((colQ features "day_of_week").map (fun d => Val.sin2pi (d / 7)))
  let features := setCol features "dow_cos"
    ((colQ features "day_of_week").map (fun d => Val.cos2pi (d / 7)))
  let pairs := (colQ features "pickup_zone").zip (colQ features "dropoff_zone")
  let features := setCol features "zone_pair_mean" (pairs.map (fun k =>
    (dictGet ((dictGet fe.zone_pair_stats (PKey.p k)).getD [])
      (PKey.s "mean")).getD (Val.q fe.global_mean)))
  let features := setCol features "zone_pair_std" (pairs.map (fun k =>
    (dictGet ((dictGet fe.zone_pair_stats (PKey.p k)).getD [])
      (PKey.s "std")).getD fe.global_std))
  let features := setCol features "zone_pair_count" (pairs.map (fun k =>
    (dictGet ((dictGet fe.zone_pair_stats (PKey.p k)).getD [])
      (PKey.s "count")).getD (Val.q 0)))
  let features := setCol features "hour_mean" ((colQ features "hour").map
    (fun h => Val.q ((dictGet fe.hour_mean h).getD fe.global_mean)))
  let features := setCol features "dow_mean" ((colQ features "day_of_week").map
    (fun d => Val.q ((dictGet fe.dow_mean d).getD fe.global_mean)))
  let combos :=
    (colS features "zone_type_pickup").zip (colS features "zone_type_dropoff")
  let features := setCol features "zone_combo_mean" (combos.map (fun k =>
    Val.q ((dictGet fe.zone_combo_mean k).getD fe.global_mean)))
  let dist := colQ features "dubai_distance"
  let features := setCol features "distance_rush"
    (List.zipWith (fun a b => Val.q (a * b)) dist (colQ features "is_rush_hour"))
  let features := setCol features "distance_weekend"
    (List.zipWith (fun a b => Val.q (a * b)) dist (colQ features "is_weekend"))
  let features := setCol features "distance_squared"
    (dist.map (fun a => Val.q (a ^ 2)))
  let features :=
    if containsCol features "is_friday_prayer" then
      setCol features "distance_friday_prayer"
        (List.zipWith (fun a b => Val.q (a * b)) dist
          (colQ features "is_friday_prayer"))
    else features
  let features := setCol features "same_zone_type"
    (List.zipWith (fun a b => Val.q (if a = b then 1 else 0))
      (colS features "zone_type_pickup") (colS features "zone_type_dropoff"))
  let features := setCol features "is_morning"
    ((colQ features "hour").map (fun h => Val.q (is_morning_ind h)))
  let features := setCol features "is_afternoon"
    ((colQ features "hour").map (fun h => Val.q (is_afternoon_ind h)))
  let features := setCol features "is_evening"
    ((colQ features "hour").map (fun h => Val.q (is_evening_ind h)))
  let features := setCol features "is_night"
    ((colQ features "hour").map (fun h => Val.q (is_night_ind h)))
  get_dummies features ["zone_type_pickup", "zone_type_dropoff", "weather"]

/-- The alignment loop of `transform` (source lines 127-130):
`for col in training_columns: if col not in features.columns: features[col] = 0`
(the scalar 0 broadcasts to a column of zeros). -/
def addMissing (tc : List String) (features : DF) : DF :=
  tc.foldl (fun acc c =>
    if containsCol acc c then acc
    else setCol acc c (List.replicate (nRowsD acc) (Val.q 0))) features

/-- The raw trip columns the body of `transform` reads unconditionally
(`is_friday_prayer` is read behind an explicit presence guard and so is
not required; `pd.get_dummies` also raises when one of its three
categorical columns is absent, so they are required). -/
def transformInputCols : List String :=
  ["hour", "day_of_week", "pickup_zone", "dropoff_zone", "zone_type_pickup",
   "zone_type_dropoff", "dubai_distance", "is_rush_hour", "is_weekend",
   "weather"]

/-- The body of `FeatureEngineer.transform` after the fitted guard: on a
frame missing any raw column the body reads, the source raises a KeyError
at the first missing read — modelled as an up-front presence check with
the same observable outcome (KeyError, no frame). Otherwise the feature
pipeline runs, followed by the training-column alignment
(`features = features[training_columns]`, which raises on a missing key). -/
def transformBody (fe : FeatureEngineer) (df : DF) : Except FEError DF :=
  if transformInputCols.all (fun c => containsCol df c) then
    let features := featurePipeline fe df
    match fe.training_columns with
    | none => Except.ok features
    | some tc =>
        match selectCols (addMissing tc features) tc with
        | some out => Except.ok out
        | none => Except.error FEError.keyError
  else Except.error FEError.keyError

/-- `FeatureEngineer.transform`, including the fitted guard. -/
def transform (fe : FeatureEngineer) (df : DF) : Except FEError DF :=
  if fe.fitted then transformBody fe df
  else Except.error
    (FEError.valueError "FeatureEngineer must be fitted before transform")

/-- `FeatureEngineer.fit_transform`: fit, transform, then freeze the column
list of the transformed frame (state threading models the `self` writes). -/
def fit_transform (fe : FeatureEngineer) (df : DF) :
    Except FEError (FeatureEngineer × DF) :=
  let fe1 := fit fe df
  match transform fe1 df with
  | Except.ok t =>
      Except.ok ({ fe1 with training_columns := some (t.map Prod.fst) }, t)
  | Except.error e => Except.error e

/-- `transform` together with the caller's input frame after the call: the
body's first statement copies (`features = df.copy()`), and every write
in the source targets `features`, never `df`, so the caller's frame is
returned unchanged. -/
def transformTrace (fe : FeatureEngineer) (df : DF) :
    Except FEError DF × DF :=
  (transform fe df, df)

/-! ## Chronological split (`DubaiDataGenerator.split_data`) -/

/-- One generated trip record, with the fields `generate_dataset` emits.
`request_datetime` is an absolute timestamp (totally ordered). -/
structure Trip where
  trip_id : String := ""
  pickup_zone : ℕ := 0
  dropoff_zone : ℕ := 0
  request_datetime : ℤ := 0
  actual_duration_minutes : ℚ := 1
  dubai_distance : ℕ := 0
  hour : ℕ := 0
  day_of_week : ℕ := 0
  is_weekend : Bool := false
  is_rush_hour : Bool := false
  is_friday_prayer : Bool := false
  zone_type_pickup : String := "residential"
  zone_type_dropoff : String := "residential"
  weather : String := "clear"
  has_event : Bool := false
  driver_efficiency : ℚ := 1
deriving DecidableEq

/-- Timestamp order used by `sort_values('request_datetime')`. -/
def tripLe (a b : Trip) : Prop := a.request_datetime ≤ b.request_datetime

instance : DecidableRel tripLe := fun _ _ => Int.decLe _ _

instance : IsTotal Trip tripLe := ⟨fun _ _ => Int.le_total _ _⟩

instance : IsTrans Trip tripLe := ⟨fun _ _ _ h h' => le_trans h h'⟩

/-- `df.sort_values('request_datetime')` (the order of the result is all
the claims depend on, so any sort by the timestamp key is faithful). -/
def sortByDatetime (df : List Trip) : List Trip :=
  List.insertionSort tripLe df

/-- `int(n * ratio)`: the float product truncated, exact in ℚ (the ratio is
nonnegative so truncation is the floor). -/
def sizeOfSplit (n : ℕ) (ratio : ℚ) : ℕ := Int.toNat ⌊(n : ℚ) * ratio⌋

/-- `DubaiDataGenerator.split_data`: sort chronologically, then cut by the
configured ratios (`data.train_ratio` default 0.7, `data.val_ratio`
default 0.15) into contiguous train/val/test slices. -/
def split_data (trainFrac valFrac : ℚ) (df : List Trip) :
    List Trip × List Trip × List Trip :=
  let sorted := sortByDatetime df
  let n := sorted.length
  let trainSize := sizeOfSplit n trainFrac
  let valSize := sizeOfSplit n valFrac
  (sorted.take trainSize,
   (sorted.drop trainSize).take valSize,
   sorted.drop (trainSize + valSize))

/-! ## Predictor (`ETAPredictor`) -/

/-- Python `round(x, 1)`: round to one decimal, ties to even (modelled on
exact rationals; float `round` is bankers' rounding of the binary value). -/
def pythonRound1 (x : ℚ) : ℚ :=
  if 10 * x - ⌊10 * x⌋ < 1 / 2 then (⌊10 * x⌋ : ℚ) / 10
  else if 1 / 2 < 10 * x - ⌊10 * x⌋ then ((⌊10 * x⌋ + 1 : ℤ) : ℚ) / 10
  else if ⌊10 * x⌋ % 2 = 0 then (⌊10 * x⌋ : ℚ) / 10
  else ((⌊10 * x⌋ + 1 : ℤ) : ℚ) / 10

/-- The factor dict returned by `ETAPredictor._decompose_factors`. -/
structure Factors where
  base_time : ℚ
  traffic_adjustment : ℚ
  weather_impact : ℚ
  zone_complexity : ℚ
deriving DecidableEq

/-- `ETAPredictor._decompose_factors`: base time is distance times 3.0,
traffic adjustment is 20% of the prediction during rush hour, else 15%
during the Friday prayer window, else 0; weather impact is the constant
0.0 placeholder; zone complexity is the residual. Each returned entry is
rounded to one decimal. -/
def decompose_factors (dubai_distance : ℕ) (is_rush_hour is_friday_prayer : Bool)
    (prediction : ℚ) : Factors :=
  let base_time : ℚ := (dubai_distance : ℚ) * 3
  let traffic_adjustment : ℚ :=
    if is_rush_hour then prediction * (2 / 10)
    else if is_friday_prayer then prediction * (15 / 100)
    else 0
  let zone_complexity := prediction - base_time - traffic_adjustment
  { base_time := pythonRound1 base_time
    traffic_adjustment := pythonRound1 traffic_adjustment
    weather_impact := 0
    zone_complexity := pythonRound1 zone_complexity }

/-- The z-score table shared by both interval computations: 1.96 for the
95% level, 2.58 for any other requested level. -/
def z_score (confidence_level : ℚ) : ℚ :=
  if confidence_level = 95 / 100 then 196 / 100 else 258 / 100

/-- `ETAPredictor._simple_confidence_interval` (baseline path):
`[max(1, prediction - z * std), prediction + z * std]` with
`std = prediction * 0.15`. -/
def simple_confidence_interval (prediction : ℚ)
    (confidence_level : ℚ := 95 / 100) : ℚ × ℚ :=
  let std := prediction * (15 / 100)
  let z := z_score confidence_level
  (max 1 (prediction - z * std), prediction + z * std)

/-- `AdvancedModel.predict_with_confidence` bounds for one prediction:
`prediction ∓ z * (prediction * 0.15)` (vectorized in the source; the
per-element computation is identical). -/
def advanced_confidence_bounds (prediction : ℚ)
    (confidence_level : ℚ := 95 / 100) : ℚ × ℚ :=
  let std_estimate := prediction * (15 / 100)
  let z := z_score confidence_level
  (prediction - z * std_estimate, prediction + z * std_estimate)

/-! ## Concrete instances used by the verification -/

/-- Payload of a successful transform (statement plumbing only). -/
def okD : Except FEError DF → DF
  | Except.ok t => t
  | Except.error _ => []

/-- No zone id is claimed by two different config entries (the regime in
which overwrite-order cannot matter). -/
def DisjointCells (cfg : ZonesConfig) : Prop :=
  List.Pairwise (fun e f => ∀ z ∈ cellsOf e.2, z ∉ cellsOf f.2) cfg

instance (cfg : ZonesConfig) : Decidable (DisjointCells cfg) :=
  List.instDecidablePairwise cfg

/-- A zones configuration in which zone 5 is listed by two entries. -/
def overlapCfg : ZonesConfig :=
  [("business", ZoneData.cellsDict [5]), ("airport", ZoneData.cellsDict [5])]

/-- A disjoint zones configuration shaped like the repository's own
(business block, coastal strips in old list format, airport corner). -/
def dubaiCfg : ZonesConfig :=
  [("business", ZoneData.cellsDict [44, 45, 54, 55]),
   ("coastal", ZoneData.listFmt [[8, 9], [18, 19]]),
   ("airport", ZoneData.cellsDict [98, 99, 88, 89])]

/-- A two-trip training frame: pair (0,1) has duration 10 and pair (2,3)
has duration 20, so the per-pair means are 10 and 20 while the global
mean is 15 and the global std is the sample std of [10, 20]. -/
def dfPairs : DF :=
  [ ("trip_id", [Val.s "trip_000000", Val.s "trip_000001"]),
    ("pickup_zone", [Val.q 0, Val.q 2]),
    ("dropoff_zone", [Val.q 1, Val.q 3]),
    ("request_datetime", [Val.q 0, Val.q 1]),
    ("actual_duration_minutes", [Val.q 10, Val.q 20]),
    ("dubai_distance", [Val.q 1, Val.q 1]),
    ("hour", [Val.q 9, Val.q 14]),
    ("day_of_week", [Val.q 0, Val.q 1]),
    ("is_weekend", [Val.b false, Val.b false]),
    ("is_rush_hour", [Val.b true, Val.b false]),
    ("is_friday_prayer", [Val.b false, Val.b false]),
    ("zone_type_pickup", [Val.s "business", Val.s "business"]),
    ("zone_type_dropoff", [Val.s "business", Val.s "business"]),
    ("weather", [Val.s "clear", Val.s "clear"]),
    ("has_event", [Val.b false, Val.b false]),
    ("driver_efficiency", [Val.q 1, Val.q 1]) ]

/-- A single-column inference frame whose weather level "fog" never occurs
at training time. -/
def dfFog : DF := [("weather", [Val.s "fog"])]

/-- Three trips in scrambled timestamp order. -/
def dfTrips3 : List Trip :=
  [{ request_datetime := 3 }, { request_datetime := 1 }, { request_datetime := 2 }]

/-- The 35 columns `fit_transform` freezes when training on `dfPairs`:
the passthrough trip columns (categoricals removed in place), the 19
engineered columns, then the one-hot groups. -/
def pairsTrainedCols : List String :=
  ["trip_id", "pickup_zone", "dropoff_zone", "request_datetime",
   "actual_duration_minutes", "dubai_distance", "hour", "day_of_week",
   "is_weekend", "is_rush_hour", "is_friday_prayer", "has_event",
   "driver_efficiency", "hour_sin", "hour_cos", "dow_sin", "dow_cos",
   "zone_pair_mean", "zone_pair_std", "zone_pair_count", "hour_mean",
   "dow_mean", "zone_combo_mean", "distance_rush", "distance_weekend",
   "distance_squared", "distance_friday_prayer", "same_zone_type",
   "is_morning", "is_afternoon", "is_evening", "is_night",
   "zone_type_pickup_business", "zone_type_dropoff_business",
   "weather_clear"]

/-- The frame `fit_transform` returns on `dfPairs` (the zone-pair features
already show the C1 fallbacks: global mean 15, global std, count 0). -/
def outPairs : DF :=
  [ ("trip_id", [Val.s "trip_000000", Val.s "trip_000001"]),
    ("pickup_zone", [Val.q 0, Val.q 2]),
    ("dropoff_zone", [Val.q 1, Val.q 3]),
    ("request_datetime", [Val.q 0, Val.q 1]),
    ("actual_duration_minutes", [Val.q 10, Val.q 20]),
    ("dubai_distance", [Val.q 1, Val.q 1]),
    ("hour", [Val.q 9, Val.q 14]),
    ("day_of_week", [Val.q 0, Val.q 1]),
    ("is_weekend", [Val.b false, Val.b false]),
    ("is_rush_hour", [Val.b true, Val.b false]),
    ("is_friday_prayer", [Val.b false, Val.b false]),
    ("has_event", [Val.b false, Val.b false]),
    ("driver_efficiency", [Val.q 1, Val.q 1]),
    ("hour_sin", [Val.sin2pi (3 / 8), Val.sin2pi (7 / 12)]),
    ("hour_cos", [Val.cos2pi (3 / 8), Val.cos2pi (7 / 12)]),
    ("dow_sin", [Val.sin2pi 0, Val.sin2pi (1 / 7)]),
    ("dow_cos", [Val.cos2pi 0, Val.cos2pi (1 / 7)]),
    ("zone_pair_mean", [Val.q 15, Val.q 15]),
    ("zone_pair_std", [Val.sampleStd [10, 20], Val.sampleStd [10, 20]]),
    ("zone_pair_count", [Val.q 0, Val.q 0]),
    ("hour_mean", [Val.q 10, Val.q 20]),
    ("dow_mean", [Val.q 10, Val.q 20]),
    ("zone_combo_mean", [Val.q 15, Val.q 15]),
    ("distance_rush", [Val.q 1, Val.q 0]),
    ("distance_weekend", [Val.q 0, Val.q 0]),
    ("distance_squared", [Val.q 1, Val.q 1]),
    ("distance_friday_prayer", [Val.q 0, Val.q 0]),
    ("same_zone_type", [Val.q 1, Val.q 1]),
    ("is_morning", [Val.q 1, Val.q 0]),
    ("is_afternoon", [Val.q 0, Val.q 1]),
    ("is_evening", [Val.q 0, Val.q 0]),
    ("is_night", [Val.q 0, Val.q 0]),
    ("zone_type_pickup_business", [Val.b true, Val.b true]),
    ("zone_type_dropoff_business", [Val.b true, Val.b true]),
    ("weather_clear", [Val.b true, Val.b true]) ]

/-- The engineer state after `fit_transform` on `dfPairs`: the learned
aggregates (per-pair means 10 and 20, per-pair counts 1, richly
illustrating what the transform lookups then fail to reach) and the
frozen 35-column list. -/
def fePairsFrozen : FeatureEngineer :=
  { zone_pair_stats :=
      [ (PKey.s "mean",
          [(PKey.p (0, 1), Val.q 10), (PKey.p (2, 3), Val.q 20)]),
        (PKey.s "std",
          [(PKey.p (0, 1), Val.sampleStd [10]),
           (PKey.p (2, 3), Val.sampleStd [20])]),
        (PKey.s "count",
          [(PKey.p (0, 1), Val.q 1), (PKey.p (2, 3), Val.q 1)]) ],
    hour_mean := [(9, 10), (14, 20)],
    dow_mean := [(0, 10), (1, 20)],
    zone_combo_mean := [(("business", "business"), 15)],
    global_mean := 15,
    global_std := Val.sampleStd [10, 20],
    training_columns := some pairsTrainedCols,
    fitted := true }

/-- `dfPairs` with the weather of the first trip replaced by "fog", a
categorical level that never occurs in the training frame. -/
def dfPairsFog : DF :=
  [ ("trip_id", [Val.s "trip_000002", Val.s "trip_000003"]),
    ("pickup_zone", [Val.q 0, Val.q 2]),
    ("dropoff_zone", [Val.q 1, Val.q 3]),
    ("request_datetime", [Val.q 2, Val.q 3]),
    ("actual_duration_minutes", [Val.q 12, Val.q 18]),
    ("dubai_distance", [Val.q 1, Val.q 1]),
    ("hour", [Val.q 9, Val.q 14]),
    ("day_of_week", [Val.q 0, Val.q 1]),
    ("is_weekend", [Val.b false, Val.b false]),
    ("is_rush_hour", [Val.b true, Val.b false]),
    ("is_friday_prayer", [Val.b false, Val.b false]),
    ("zone_type_pickup", [Val.s "business", Val.s "business"]),
    ("zone_type_dropoff", [Val.s "business", Val.s "business"]),
    ("weather", [Val.s "fog", Val.s "clear"]),
    ("has_event", [Val.b false, Val.b false]),
    ("driver_efficiency", [Val.q 1, Val.q 1]) ]

/-! ## Helper lemmas -/

/-- Rounding to one decimal moves a value by at most 1/20. -/
theorem pythonRound1_abs_sub_le (x : ℚ) : |pythonRound1 x - x| ≤ 1 / 20 := by
  have h0 : ((⌊10 * x⌋ : ℤ) : ℚ) ≤ 10 * x := Int.floor_le _
  have h1 : 10 * x < (⌊10 * x⌋ : ℤ) + 1 := Int.lt_floor_add_one _
  unfold pythonRound1
  split_ifs with hf hg hn <;>
    (rw [abs_le]; push_cast at *; constructor <;> linarith)

/-- Rounding to one decimal is exact on values whose tenfold is an integer. -/
theorem pythonRound1_eq_of_int_mul (x : ℚ) (m : ℤ) (hm : 10 * x = (m : ℚ)) :
    pythonRound1 x = x := by
  have hfloor : ⌊10 * x⌋ = m := by rw [hm]; exact Int.floor_intCast m
  unfold pythonRound1
  rw [hfloor, hm, sub_self]
  rw [if_pos (by norm_num)]
  linarith

/-- Both tabulated z-scores are positive. -/
theorem z_score_pos (level : ℚ) : 0 < z_score level := by
  unfold z_score; split <;> norm_num

/-! ## Claims -/

/-- C2: for every prediction, the factor decomposition returned by
`_decompose_factors` satisfies `base_time + traffic_adjustment +
weather_impact + zone_complexity = estimated_duration_minutes` up to the
one-decimal rounding applied to the returned entries (each rounded entry
is within 1/20 of its exact value, and the exact values sum to the
prediction identically); `base_time` is exactly distance times 3.0,
`weather_impact` is exactly 0, `traffic_adjustment` is (the rounding of)
0.2 times the prediction during rush hour, else 0.15 times the prediction
in the Friday prayer window, else 0, and `zone_complexity` is (the
rounding of) the possibly negative residual. -/
theorem C2_factor_decomposition (d : ℕ) (rush fr : Bool) (pred : ℚ) :
    (decompose_factors d rush fr pred).base_time = (d : ℚ) * 3 ∧
    (decompose_factors d rush fr pred).weather_impact = 0 ∧
    |(decompose_factors d rush fr pred).traffic_adjustment -
      (if rush then pred * (2 / 10) else
        if fr then pred * (15 / 100) else 0)| ≤ 1 / 20 ∧
    |(decompose_factors d rush fr pred).zone_complexity -
      (pred - (d : ℚ) * 3 -
        (if rush then pred * (2 / 10) else
          if fr then pred * (15 / 100) else 0))| ≤ 1 / 20 ∧
    |(decompose_factors d rush fr pred).base_time +
      (decompose_factors d rush fr pred).traffic_adjustment +
      (decompose_factors d rush fr pred).weather_impact +
      (decompose_factors d rush fr pred).zone_complexity - pred| ≤ 1 / 10 := by
  have hbase : pythonRound1 ((d : ℚ) * 3) = (d : ℚ) * 3 :=
    pythonRound1_eq_of_int_mul _ (30 * d) (by push_cast; ring)
  have ht := pythonRound1_abs_sub_le
    (if rush then pred * (2 / 10) else if fr then pred * (15 / 100) else 0)
  have hz := pythonRound1_abs_sub_le
    (pred - (d : ℚ) * 3 -
      (if rush then pred * (2 / 10) else if fr then pred * (15 / 100) else 0))
  simp only [decompose_factors]
  refine ⟨hbase, trivial, ht, hz, ?_⟩
  rw [hbase]
  rw [abs_le] at ht hz ⊢
  constructor <;> linarith [ht.1, ht.2, hz.1, hz.2]

/-- C4: for both model types the confidence interval strictly brackets the
point estimate on non-degenerate predictions. For the baseline interval
`[max(1, est - z·0.15·est), est + z·0.15·est]` the lower clamp makes
"non-degenerate" mean an estimate above the 1-minute clamp; for the
advanced bounds `est ∓ z·0.15·est` any positive estimate works. -/
theorem C4_confidence_brackets (pred level : ℚ) :
    (1 < pred →
      (simple_confidence_interval pred level).1 < pred ∧
      pred < (simple_confidence_interval pred level).2) ∧
    (0 < pred →
      (advanced_confidence_bounds pred level).1 < pred ∧
      pred < (advanced_confidence_bounds pred level).2) := by
  have hz := z_score_pos level
  unfold simple_confidence_interval advanced_confidence_bounds
  constructor
  · intro h
    have hpos : 0 < z_score level * (pred * (15 / 100)) := by
      have : (0 : ℚ) < pred := by linarith
      positivity
    exact ⟨max_lt h (by linarith), by linarith⟩
  · intro h
    have hpos : 0 < z_score level * (pred * (15 / 100)) := by positivity
    exact ⟨by linarith, by linarith⟩

/-- C4 witness: at estimate 10 and the default 95% level both intervals
strictly bracket the estimate. -/
theorem C4_witness :
    (simple_confidence_interval 10 (95 / 100)).1 < 10 ∧
    10 < (simple_confidence_interval 10 (95 / 100)).2 ∧
    (advanced_confidence_bounds 10 (95 / 100)).1 < 10 ∧
    10 < (advanced_confidence_bounds 10 (95 / 100)).2 := by
  obtain ⟨h1, h2⟩ := C4_confidence_brackets 10 (95 / 100)
  obtain ⟨ha, hb⟩ := h1 (by norm_num)
  obtain ⟨hc, hd⟩ := h2 (by norm_num)
  exact ⟨ha, hb, hc, hd⟩

/-- C5 counterexample: the claim "hours 11, 16 and 21 are covered by no
indicator" is false at hours 16 and 21 — pandas `between` is inclusive,
so `is_afternoon` covers 16 and `is_evening` covers 21. -/
theorem C5_counterexample :
    is_afternoon_ind 16 = 1 ∧ is_evening_ind 21 = 1 := by decide

/-- C5 amended: hour 11 is the only hour of the day covered by none of the
four time-window indicators (6-10, 12-16, 17-21, 22-23 with 0-5, all
inclusive); in particular at hour 11 all four indicators are 0, while
hours 16 and 21 are covered. -/
theorem C5_gap_hours :
    ∀ h : Fin 24,
      (is_morning_ind h = 0 ∧ is_afternoon_ind h = 0 ∧
       is_evening_ind h = 0 ∧ is_night_ind h = 0) ↔ (h : ℕ) = 11 := by
  decide

/-- C7: calling `transform` before `fit` fails, for every input frame, with
the source's unfitted guard error (a Python ValueError whose message is
the text below; the spec's error taxonomy names this failure
`NotFittedError`). The call returns no partial result — the error is its
entire outcome — and the state is untouched (the source's `transform`
assigns no attribute of `self`, which the embedding reflects by `transform`
consuming the state read-only). -/
theorem C7_transform_before_fit (fe : FeatureEngineer) (df : DF)
    (h : fe.fitted = false) :
    transform fe df = Except.error
      (FEError.valueError "FeatureEngineer must be fitted before transform") := by
  unfold transform
  rw [h]
  simp

/-- C7 witness: a freshly constructed engineer rejects any transform. -/
theorem C7_witness :
    transform initFeatureEngineer dfFog = Except.error
      (FEError.valueError "FeatureEngineer must be fitted before transform") :=
  C7_transform_before_fit initFeatureEngineer dfFog rfl

/-- C1 (code bug): the pair statistics learned by `fit` are never read
back. `DataFrame.to_dict()` orients the aggregate frame as
column -> (index -> value), so the stored dict's top-level keys are the
aggregate names — the first conjunct shows the tuple-keyed lookup
`zone_pair_stats.get((pickup, dropoff), {})` misses for every fitted
state and every pair. Consequently, on a training frame whose pair (0,1)
has mean 10 (and count 2), transforming that very frame yields the
global-mean fallback 15 for zone_pair_mean, the count fallback 0, and the
global sample std of [10, 20] for zone_pair_std — not the per-pair
statistics the claim (and the surrounding code's intent) requires. -/
theorem C1_pair_stats_always_fall_back :
    (∀ (fe : FeatureEngineer) (df : DF) (k : ℚ × ℚ),
      dictGet (fit fe df).zone_pair_stats (PKey.p k) = none) ∧
    dictGet (fit initFeatureEngineer dfPairs).zone_pair_stats (PKey.s "mean")
      = some [(PKey.p (0, 1), Val.q 10), (PKey.p (2, 3), Val.q 20)] ∧
    (fit initFeatureEngineer dfPairs).global_mean = 15 ∧
    getCol (okD (transform (fit initFeatureEngineer dfPairs) dfPairs))
      "zone_pair_mean" = [Val.q 15, Val.q 15] ∧
    getCol (okD (transform (fit initFeatureEngineer dfPairs) dfPairs))
      "zone_pair_count" = [Val.q 0, Val.q 0] ∧
    getCol (okD (transform (fit initFeatureEngineer dfPairs) dfPairs))
      "zone_pair_std"
      = [Val.sampleStd [10, 20], Val.sampleStd [10, 20]] := by
  refine ⟨fun fe df k => by simp [fit, dictGet], ?_, ?_, ?_, ?_, ?_⟩ <;>
    norm_num +decide [okD, transform, transformBody, featurePipeline, fit,
      addMissing, initFeatureEngineer, dfPairs, colQ, colS, getCol, setCol,
      containsCol, Val.toQ, Val.toS, groupKeys, groupVals, listMean, dictGet,
      get_dummies, dummiesFor, selectCols, nRowsD, is_morning_ind,
      is_afternoon_ind, is_evening_ind, is_night_ind]

/-- A pass of the generator's override loop writes the entry's type at
exactly the entry's cells and keeps the map elsewhere. -/
theorem applyCells_apply (m : ℕ → Option String) (ty : String)
    (cells : List ℕ) (z : ℕ) :
    applyCells m ty cells z = if z ∈ cells then some ty else m z := by
  induction cells generalizing m with
  | nil => simp [applyCells]
  | cons c cs ih =>
    show applyCells (Function.update m c (some ty)) ty cs z = _
    rw [ih]
    by_cases hz : z ∈ cs
    · simp [hz]
    · by_cases hc : z = c
      · subst hc; simp [hz, Function.update_same]
      · simp [hz, hc, Function.update_noteq hc]

/-- Entries that never mention a zone leave the generator's map unchanged
at that zone. -/
theorem foldl_zone_no_match (cfg : ZonesConfig) (m : ℕ → Option String)
    (z : ℕ) (h : ∀ e ∈ cfg, z ∉ cellsOf e.2) :
    cfg.foldl (fun acc e => applyCells acc e.1 (cellsOf e.2)) m z = m z := by
  induction cfg generalizing m with
  | nil => rfl
  | cons e rest ih =>
    rw [List.foldl_cons, ih _ (fun f hf => h f (List.mem_cons_of_mem e hf)),
      applyCells_apply, if_neg (h e (List.mem_cons_self e rest))]

/-- Core of the C8 agreement: on overlap-free configurations the
generator's fold and the predictor's first-match scan coincide. -/
theorem foldl_zone_eq_get (cfg : ZonesConfig) (m : ℕ → Option String) (z : ℕ)
    (hm : m z = some "residential") (hd : DisjointCells cfg) :
    cfg.foldl (fun acc e => applyCells acc e.1 (cellsOf e.2)) m z
      = some (get_zone_type cfg z) := by
  induction cfg generalizing m with
  | nil => simpa [get_zone_type] using hm
  | cons e rest ih =>
    obtain ⟨he, hrest⟩ := List.pairwise_cons.mp hd
    rw [List.foldl_cons]
    by_cases hz : z ∈ cellsOf e.2
    · rw [foldl_zone_no_match rest _ z (fun f hf => he f hf z hz),
        applyCells_apply, if_pos hz, get_zone_type, if_pos hz]
    · rw [get_zone_type, if_neg hz]
      exact ih _ (by rw [applyCells_apply, if_neg hz]; exact hm) hrest

/-- The generator's fold never erases an entry of the map. -/
theorem foldl_zone_isSome (cfg : ZonesConfig) (m : ℕ → Option String) (z : ℕ)
    (hm : (m z).isSome) :
    (cfg.foldl (fun acc e => applyCells acc e.1 (cellsOf e.2)) m z).isSome := by
  induction cfg generalizing m with
  | nil => exact hm
  | cons e rest ih =>
    rw [List.foldl_cons]
    exact ih _ (by rw [applyCells_apply]; split <;> simp [hm])

/-- The generator's map is defined at every in-range zone id. -/
theorem define_zone_types_isSome (nZones : ℕ) (cfg : ZonesConfig) (z : ℕ)
    (hz : z < nZones) : (define_zone_types nZones cfg z).isSome := by
  unfold define_zone_types
  exact foldl_zone_isSome cfg _ z (by simp [hz])

/-- C8 counterexample: when zone 5 is listed by both the business entry
and the later airport entry, the generator's mapping resolves to the later
entry (dict overwrite) while the predictor's scan returns the earlier one
(first match), so the two components disagree — refuting the claim that
overlaps are resolved "later entries overwrite earlier ones in both
components" and with it the claimed equality for every configuration. -/
theorem C8_counterexample :
    define_zone_types 100 overlapCfg 5 = some "airport" ∧
    get_zone_type overlapCfg 5 = "business" ∧
    define_zone_types 100 overlapCfg 5 ≠ some (get_zone_type overlapCfg 5) := by
  refine ⟨by decide, by decide, ?_⟩
  intro h
  rw [show get_zone_type overlapCfg 5 = "business" from by decide,
    show define_zone_types 100 overlapCfg 5 = some "airport" from by decide] at h
  simp at h

/-- C8 amended: on every configuration in which no zone id is claimed by
two entries, and for every in-range zone id, the predictor's
`_get_zone_type` agrees with the generator's `_define_zone_types` mapping
(explicit cell lists take precedence over the residential default). Under
overlap they differ: the generator resolves later-entry-wins, the
predictor first-entry-wins. -/
theorem C8_agreement_on_disjoint (nZones : ℕ) (cfg : ZonesConfig) (z : ℕ)
    (hd : DisjointCells cfg) (hz : z < nZones) :
    define_zone_types nZones cfg z = some (get_zone_type cfg z) := by
  unfold define_zone_types
  exact foldl_zone_eq_get cfg _ z (by simp [hz]) hd

/-- C8 witness: on the repository-shaped disjoint configuration the two
components agree at zone 54 (business) and at zone 7 (residential). -/
theorem C8_witness :
    define_zone_types 100 dubaiCfg 54 = some "business" ∧
    define_zone_types 100 dubaiCfg 7 = some "residential" := by
  have h54 := C8_agreement_on_disjoint 100 dubaiCfg 54 (by decide) (by decide)
  have h7 := C8_agreement_on_disjoint 100 dubaiCfg 7 (by decide) (by decide)
  rw [h54, h7]
  exact ⟨by decide, by decide⟩

/-- C9 counterexample: the zone operations perform no range check and no
`InvalidZoneError` exists in the core — at the out-of-range pickup id 1003
(100 zones configured) the distance operation succeeds and returns 103,
where the spec's words demand a failure; range validation happens only at
the API request boundary. -/
theorem C9_counterexample :
    zoneDistanceCodeE 10 1003 0 = Except.ok 103 ∧
    zoneDistanceSpecModel 100 10 1003 0 = Except.error ZoneError.invalidZone ∧
    zoneDistanceCodeE 10 1003 0 ≠ zoneDistanceSpecModel 100 10 1003 0 := by
  have h1 : zoneDistanceCodeE 10 1003 0 = Except.ok 103 := rfl
  have h2 : zoneDistanceSpecModel 100 10 1003 0
      = Except.error ZoneError.invalidZone := by
    unfold zoneDistanceSpecModel
    rw [if_neg (by omega)]
  refine ⟨h1, h2, ?_⟩
  rw [h1, h2]
  simp

/-- C9 amended: the zone operations are pure, deterministic and total. For
every pair of ids (in range or not) the distance succeeds and equals the
Manhattan distance of the derived grid coordinates, the predictor's and
the generator's distance computations agree, the distance is symmetric
and vanishes on equal zones, and the generator's zone-type table is
defined at every in-range id. -/
theorem C9_zone_ops_total :
    (∀ g p d : ℕ,
      zoneDistanceCodeE g p d = Except.ok
        (Int.natAbs ((zoneRow g p : ℤ) - (zoneRow g d : ℤ)) +
         Int.natAbs ((zoneCol g p : ℤ) - (zoneCol g d : ℤ))) ∧
      predictor_calculate_dubai_distance g p d = calculate_dubai_distance g p d ∧
      calculate_dubai_distance g p d = calculate_dubai_distance g d p ∧
      calculate_dubai_distance g p p = 0) ∧
    (∀ (nZones : ℕ) (cfg : ZonesConfig) (z : ℕ), z < nZones →
      (define_zone_types nZones cfg z).isSome) := by
  refine ⟨fun g p d => ⟨rfl, rfl, ?_, ?_⟩, fun n cfg z hz =>
    define_zone_types_isSome n cfg z hz⟩
  · unfold calculate_dubai_distance
    omega
  · unfold calculate_dubai_distance
    omega

/-- C9 witness: the spec's own test value — corner-to-corner distance on
the 10x10 grid is 18 — and definedness of the zone-type table at id 7. -/
theorem C9_witness :
    zoneDistanceCodeE 10 0 99 = Except.ok 18 ∧
    (define_zone_types 100 dubaiCfg 7).isSome := by
  have h := (C9_zone_ops_total.1 10 0 99).1
  refine ⟨?_, C9_zone_ops_total.2 100 dubaiCfg 7 (by decide)⟩
  rw [h]
  simp only [zoneRow, zoneCol, Except.ok.injEq]
  omega

/-- Column presence is membership in the name list. -/
theorem containsCol_iff (df : DF) (c : String) :
    containsCol df c = true ↔ c ∈ df.map Prod.fst := by
  simp only [containsCol, List.any_eq_true, beq_iff_eq, List.mem_map]

/-- Column assignment either keeps the name list (overwrite) or appends
the new name at the end. -/
theorem names_setCol (df : DF) (c : String) (vs : List Val) :
    (setCol df c vs).map Prod.fst =
      if containsCol df c then df.map Prod.fst
      else df.map Prod.fst ++ [c] := by
  unfold setCol
  split
  · rw [List.map_map]
    apply List.map_congr_left
    intro p _
    by_cases hpc : p.1 = c
    · simp [hpc]
    · simp [hpc]
  · simp

/-- Membership in the names after a column assignment. -/
theorem mem_names_setCol (df : DF) (c c' : String) (vs : List Val) :
    c' ∈ (setCol df c vs).map Prod.fst ↔ c' ∈ df.map Prod.fst ∨ c' = c := by
  rw [names_setCol]
  split
  · constructor
    · exact Or.inl
    · rintro (h' | rfl)
      · exact h'
      · exact (containsCol_iff df c').mp (by assumption)
  · simp

/-- Unfolding of the alignment loop. -/
theorem addMissing_cons (c : String) (cs : List String) (df : DF) :
    addMissing (c :: cs) df =
      addMissing cs (if containsCol df c then df
        else setCol df c (List.replicate (nRowsD df) (Val.q 0))) := rfl

/-- The alignment loop never removes a column. -/
theorem mem_names_addMissing_of_mem (tc : List String) (df : DF)
    (c' : String) (h : c' ∈ df.map Prod.fst) :
    c' ∈ (addMissing tc df).map Prod.fst := by
  induction tc generalizing df with
  | nil => exact h
  | cons c cs ih =>
    rw [addMissing_cons]
    apply ih
    split
    · exact h
    · exact (mem_names_setCol df c c' _).mpr (Or.inl h)

/-- After the alignment loop every training column is present. -/
theorem mem_names_addMissing_self (tc : List String) (df : DF) :
    ∀ c ∈ tc, c ∈ (addMissing tc df).map Prod.fst := by
  induction tc generalizing df with
  | nil => intro c hc; cases hc
  | cons c cs ih =>
    intro c' hc'
    rw [addMissing_cons]
    rcases List.mem_cons.mp hc' with rfl | h'
    · apply mem_names_addMissing_of_mem
      split
      · exact (containsCol_iff df c').mp (by assumption)
      · exact (mem_names_setCol df c' c' _).mpr (Or.inr rfl)
    · exact ih _ c' h'

/-- The final selection `features[training_columns]` cannot miss after the
alignment loop: it returns exactly the training columns in order. -/
theorem selectCols_addMissing (tc : List String) (df : DF) :
    selectCols (addMissing tc df) tc
      = some (tc.map (fun c => (c, getCol (addMissing tc df) c))) := by
  have hall : (tc.all (fun c => containsCol (addMissing tc df) c)) = true := by
    rw [List.all_eq_true]
    intro c hc
    exact (containsCol_iff _ c).mpr (mem_names_addMissing_self tc df c hc)
  unfold selectCols
  rw [if_pos hall]

/-- C3: once a first `fit_transform` has frozen the training column list,
every subsequent `transform` on a frame carrying the raw trip columns the
body reads — including frames whose categorical levels were never seen at
training time — succeeds and returns a frame whose column list is exactly
the frozen list in the same order (missing columns are added as all-zero
by the alignment loop, extras are dropped by the final selection). Frames
missing a required raw column are outside the claim: on those the source
raises a KeyError, which the embedding's guard reflects. -/
theorem C3_frozen_training_columns (fe0 fe1 : FeatureEngineer)
    (df0 out0 df1 : DF)
    (h : fit_transform fe0 df0 = Except.ok (fe1, out0))
    (hcols : transformInputCols.all (fun c => containsCol df1 c) = true) :
    ∃ out1, transform fe1 df1 = Except.ok out1 ∧
      out1.map Prod.fst = out0.map Prod.fst := by
  unfold fit_transform at h
  dsimp only at h
  cases htr : transform (fit fe0 df0) df0 with
  | error e => rw [htr] at h; exact absurd h (by simp)
  | ok t =>
    rw [htr] at h
    simp only [Except.ok.injEq, Prod.mk.injEq] at h
    obtain ⟨hfe, hout⟩ := h
    have hfit : fe1.fitted = true := by rw [← hfe]; rfl
    have htc : fe1.training_columns = some (out0.map Prod.fst) := by
      rw [← hfe, ← hout]
    unfold transform
    rw [hfit]
    rw [if_pos rfl]
    dsimp only [transformBody]
    rw [if_pos hcols]
    rw [htc]
    dsimp only
    rw [selectCols_addMissing]
    refine ⟨_, rfl, ?_⟩
    rw [List.map_map]
    simp

/-- C3 witness: training on the two-trip frame `dfPairs` freezes its 35
output columns; transforming `dfPairsFog` — a full trip frame whose
weather level "fog" never occurred at training time — succeeds and yields
exactly those 35 columns: the stray weather_fog one-hot column is
dropped and the training-time weather_clear column is re-created. -/
theorem C3_witness :
    ∃ out1, transform fePairsFrozen dfPairsFog = Except.ok out1 ∧
      out1.map Prod.fst = pairsTrainedCols := by
  have hft : fit_transform initFeatureEngineer dfPairs
      = Except.ok (fePairsFrozen, outPairs) := by
    norm_num +decide [fit_transform, transform, transformBody, featurePipeline,
      fit, addMissing, initFeatureEngineer, fePairsFrozen, outPairs,
      pairsTrainedCols, dfPairs, transformInputCols, colQ, colS, getCol,
      setCol, containsCol, Val.toQ, Val.toS, groupKeys, groupVals, listMean,
      dictGet, get_dummies, dummiesFor, selectCols, nRowsD, is_morning_ind,
      is_afternoon_ind, is_evening_ind, is_night_ind]
  obtain ⟨out1, h1, h2⟩ := C3_frozen_training_columns initFeatureEngineer
    fePairsFrozen dfPairs outPairs dfPairsFog hft (by decide)
  refine ⟨out1, h1, ?_⟩
  rw [h2]
  decide

/-- `int(n * (a/b))` on exact rationals is the natural-number division
`a * n / b`. -/
theorem sizeOfSplit_ratio (n a b : ℕ) :
    sizeOfSplit n ((a : ℚ) / (b : ℚ)) = a * n / b := by
  unfold sizeOfSplit
  rw [show (n : ℚ) * ((a : ℚ) / (b : ℚ)) = ((a * n : ℕ) : ℤ) / ((b : ℕ) : ℚ) by
    push_cast; ring]
  rw [Rat.floor_intCast_div_natCast]
  rw [← Int.natCast_div, Int.toNat_ofNat]

/-- C10: `transform` never changes the caller's input frame: the body's
first statement copies it (`features = df.copy()`) and every subsequent
write targets the copy, so the frame the caller holds after the call is
the frame it passed in, with the same columns and values. -/
theorem C10_input_frame_unchanged (fe : FeatureEngineer) (df : DF) :
    (transformTrace fe df).2 = df := rfl

end DubaiETA
